import Mathlib

/-!
Shallow embedding of the MT Marketplace SDK (`src/index.ts`) and proofs
about it.

Strings are modelled as their byte sequences (`List Nat`, each entry a
byte).  All inputs used in concrete theorems are ASCII, for which the
UTF-8 bytes are exactly the character codes.

The cryptographic helpers (`createSignature`, `verifySignature`) are
embedded on top of an executable HMAC-SHA256 implementation, mirroring
Node's `crypto.createHmac('sha256', secret).update(payload).digest('hex')`.
`verifySignature` mirrors `crypto.timingSafeEqual(Buffer.from(signature),
Buffer.from(expectedSignature))`: `Buffer.from` of a string yields its
UTF-8 bytes (no hex decoding), and `timingSafeEqual` throws a
`RangeError` when the two buffers have different byte lengths, which we
model with `Except`.
-/

set_option maxRecDepth 100000

namespace MTSdk

/-- Bytes of an ASCII string: the code points, valid as UTF-8 bytes for
code points below 128 (all strings used here are ASCII). -/
def asciiBytes (s : String) : List Nat := s.data.map Char.toNat

/-- Truncation to a 32-bit word. -/
def w32 (x : Nat) : Nat := x % 4294967296

/-- Rotate a 32-bit word right by `n` positions. -/
def rotr (n x : Nat) : Nat := w32 ((x >>> n) ||| (x <<< (32 - n)))

def shaCh (x y z : Nat) : Nat := (x &&& y) ^^^ ((x ^^^ 4294967295) &&& z)

def shaMaj (x y z : Nat) : Nat := (x &&& y) ^^^ (x &&& z) ^^^ (y &&& z)

def bigSigma0 (x : Nat) : Nat := rotr 2 x ^^^ rotr 13 x ^^^ rotr 22 x

def bigSigma1 (x : Nat) : Nat := rotr 6 x ^^^ rotr 11 x ^^^ rotr 25 x

def smallSigma0 (x : Nat) : Nat := rotr 7 x ^^^ rotr 18 x ^^^ (x >>> 3)

def smallSigma1 (x : Nat) : Nat := rotr 17 x ^^^ rotr 19 x ^^^ (x >>> 10)

/-- The SHA-256 round constants (FIPS 180-4, written in decimal). -/
def kConsts : List Nat :=
  [1116352408, 1899447441, 3049323471, 3921009573, 961987163,
   1508970993, 2453635748, 2870763221, 3624381080, 310598401,
   607225278, 1426881987, 1925078388, 2162078206, 2614888103,
   3248222580, 3835390401, 4022224774, 264347078, 604807628,
   770255983, 1249150122, 1555081692, 1996064986, 2554220882,
   2821834349, 2952996808, 3210313671, 3336571891, 3584528711,
   113926993, 338241895, 666307205, 773529912, 1294757372,
   1396182291, 1695183700, 1986661051, 2177026350, 2456956037,
   2730485921, 2820302411, 3259730800, 3345764771, 3516065817,
   3600352804, 4094571909, 275423344, 430227734, 506948616,
   659060556, 883997877, 958139571, 1322822218, 1537002063,
   1747873779, 1955562222, 2024104815, 2227730452, 2361852424,
   2428436474, 2756734187, 3204031479, 3329325298]

/-- Working state of the SHA-256 compression function (eight 32-bit words). -/
structure Sha256State where
  a : Nat
  b : Nat
  c : Nat
  d : Nat
  e : Nat
  f : Nat
  g : Nat
  hv : Nat
deriving Repr, DecidableEq

/-- The SHA-256 initial hash value (FIPS 180-4, written in decimal). -/
def initState : Sha256State :=
  ⟨1779033703, 3144134277, 1013904242, 2773480762,
   1359893119, 2600822924, 528734635, 1541459225⟩

/-- Group a byte list into big-endian 32-bit words (four bytes per word). -/
def toWords : List Nat → List Nat
  | b0 :: b1 :: b2 :: b3 :: rest =>
      ((b0 <<< 24) ||| (b1 <<< 16) ||| (b2 <<< 8) ||| b3) :: toWords rest
  | _ => []

/-- Next word of the SHA-256 message schedule from the words so far. -/
def nextW (ws : List Nat) : Nat :=
  let n := ws.length
  w32 (smallSigma1 (ws.getD (n - 2) 0) + ws.getD (n - 7) 0 +
       smallSigma0 (ws.getD (n - 15) 0) + ws.getD (n - 16) 0)

/-- Extend the message schedule by the given number of words. -/
def extendW : Nat → List Nat → List Nat
  | 0, ws => ws
  | k + 1, ws => extendW k (ws ++ [nextW ws])

/-- One SHA-256 round on the working variables, given a constant/schedule pair. -/
def roundStep (st : Sha256State) (kw : Nat × Nat) : Sha256State :=
  let t1 := w32 (st.hv + bigSigma1 st.e + shaCh st.e st.f st.g + kw.1 + kw.2)
  let t2 := w32 (bigSigma0 st.a + shaMaj st.a st.b st.c)
  ⟨w32 (t1 + t2), st.a, st.b, st.c, w32 (st.d + t1), st.e, st.f, st.g⟩

/-- The SHA-256 compression function on one 64-byte block. -/
def compress (st : Sha256State) (block : List Nat) : Sha256State :=
  let ws := extendW 48 (toWords block)
  let fin := (kConsts.zip ws).foldl roundStep st
  ⟨w32 (st.a + fin.a), w32 (st.b + fin.b), w32 (st.c + fin.c),
   w32 (st.d + fin.d), w32 (st.e + fin.e), w32 (st.f + fin.f),
   w32 (st.g + fin.g), w32 (st.hv + fin.hv)⟩

/-- Big-endian 64-bit encoding of a bit length. -/
def lenBe64 (n : Nat) : List Nat :=
  [56, 48, 40, 32, 24, 16, 8, 0].map (fun s => (n >>> s) &&& 255)

/-- SHA-256 padding: append 0x80, zeros, and the 64-bit big-endian bit length
so the total length is a multiple of 64 bytes. -/
def padMessage (msg : List Nat) : List Nat :=
  let zeros := (119 - msg.length % 64) % 64
  msg ++ 128 :: (List.replicate zeros 0 ++ lenBe64 (msg.length * 8))

/-- Fold the compression function over the given number of 64-byte blocks. -/
def processBlocks : Nat → Sha256State → List Nat → Sha256State
  | 0, st, _ => st
  | k + 1, st, bytes => processBlocks k (compress st (bytes.take 64)) (bytes.drop 64)

/-- Big-endian bytes of a 32-bit word. -/
def wordBytes (w : Nat) : List Nat :=
  [(w >>> 24) &&& 255, (w >>> 16) &&& 255, (w >>> 8) &&& 255, w &&& 255]

/-- SHA-256 of a byte sequence (32-byte digest). -/
def sha256 (msg : List Nat) : List Nat :=
  let padded := padMessage msg
  let st := processBlocks (padded.length / 64) initState padded
  wordBytes st.a ++ wordBytes st.b ++ wordBytes st.c ++ wordBytes st.d ++
  wordBytes st.e ++ wordBytes st.f ++ wordBytes st.g ++ wordBytes st.hv

/-- HMAC-SHA256 (RFC 2104) of a message under a key, 32-byte digest. -/
def hmacSha256 (key msg : List Nat) : List Nat :=
  let k0 := if 64 < key.length then sha256 key else key
  let kp := k0 ++ List.replicate (64 - k0.length) 0
  let ipadK := kp.map (fun b => b ^^^ 54)
  let opadK := kp.map (fun b => b ^^^ 92)
  sha256 (opadK ++ sha256 (ipadK ++ msg))

/-- ASCII code of the lowercase hex digit for a value below 16. -/
def hexDigit (n : Nat) : Nat := if n < 10 then 48 + n else 87 + n

/-- Lowercase hexadecimal encoding of a byte list, as ASCII bytes
(Node's `.digest('hex')`). -/
def hexBytes (bs : List Nat) : List Nat :=
  bs.flatMap (fun b => [hexDigit (b / 16), hexDigit (b % 16)])

/-- Embedding of `createSignature(payload, secret)` from `src/index.ts`
(lines 203-208): the lowercase-hex HMAC-SHA256 digest of the payload
keyed by the secret, as the bytes of the hex string. -/
def createSignature (payload secret : List Nat) : List Nat :=
  hexBytes (hmacSha256 secret payload)

/-- Embedding of `verifySignature(payload, signature, secret)` from
`src/index.ts` (lines 187-201).  `Buffer.from(signature)` yields the
string's UTF-8 bytes (the `signature` argument here), and
`crypto.timingSafeEqual` throws a `RangeError` when the buffer lengths
differ, modelled as `Except.error`; otherwise it returns byte equality. -/
def verifySignature (payload signature secret : List Nat) : Except String Bool :=
  let expectedSignature := createSignature payload secret
  if signature.length = expectedSignature.length then
    Except.ok (decide (signature = expectedSignature))
  else
    Except.error "RangeError: Input buffers must have the same byte length"

/-!
JSON values.  `Json.obj` keeps fields in insertion order, as JavaScript
objects do.  Mutual inductives (rather than a nested `List Json`) keep
all recursions structural, so concrete values reduce in the kernel.
-/

mutual

inductive Json where
  | null : Json
  | bool (b : Bool) : Json
  | num (n : Int) : Json
  | str (s : String) : Json
  | arr (xs : JsonArr) : Json
  | obj (fs : JsonObj) : Json
deriving Repr

inductive JsonArr where
  | nil : JsonArr
  | cons (hd : Json) (tl : JsonArr) : JsonArr
deriving Repr

inductive JsonObj where
  | nil : JsonObj
  | cons (k : String) (v : Json) (tl : JsonObj) : JsonObj
deriving Repr

end

/-- Property access on a JSON object (`body.foo`): `none` models
JavaScript's `undefined`. -/
def JsonObj.lookup : JsonObj → String → Option Json
  | .nil, _ => none
  | .cons k v tl, key => if k = key then some v else tl.lookup key

/-- Property access on any JSON value; non-objects have no properties. -/
def Json.lookup : Json → String → Option Json
  | .obj fs, key => fs.lookup key
  | _, _ => none

/-- JavaScript truthiness of a possibly-absent JSON value: `undefined`,
`null`, `false`, `0` and `""` are falsy, everything else truthy. -/
def truthy : Option Json → Bool
  | none => false
  | some .null => false
  | some (.bool b) => b
  | some (.num n) => decide (n ≠ 0)
  | some (.str s) => decide (s ≠ "")
  | some (.arr _) => true
  | some (.obj _) => true

/-- JavaScript `a || b` on a possibly-absent value with a fallback. -/
def jsOr (a : Option Json) (b : Json) : Json :=
  if truthy a then a.getD Json.null else b

/-- JSON string literal escaping for one character, as in
`JSON.stringify` (ASCII subset; control characters below 32 other than
the common ones would need a u-escape and do not occur in inputs here). -/
def escapeChar (c : Nat) : List Nat :=
  if c = 34 then [92, 34]
  else if c = 92 then [92, 92]
  else if c = 10 then [92, 110]
  else if c = 13 then [92, 114]
  else if c = 9 then [92, 116]
  else [c]

/-- Bytes of a JSON string literal: quote, escaped contents, quote. -/
def strLit (s : String) : List Nat :=
  34 :: (asciiBytes s).flatMap escapeChar ++ [34]

mutual

/-- Embedding of `JSON.stringify` on the JSON model: no whitespace,
object fields in insertion order, result as ASCII bytes. -/
def stringifyJson : Json → List Nat
  | .null => asciiBytes "null"
  | .bool true => asciiBytes "true"
  | .bool false => asciiBytes "false"
  | .num n => asciiBytes (toString n)
  | .str s => strLit s
  | .arr xs => 91 :: stringifyArr xs ++ [93]
  | .obj fs => 123 :: stringifyObj fs ++ [125]

def stringifyArr : JsonArr → List Nat
  | .nil => []
  | .cons x .nil => stringifyJson x
  | .cons x tl => stringifyJson x ++ 44 :: stringifyArr tl

def stringifyObj : JsonObj → List Nat
  | .nil => []
  | .cons k v .nil => strLit k ++ 58 :: stringifyJson v
  | .cons k v tl => strLit k ++ 58 :: stringifyJson v ++ 44 :: stringifyObj tl

end

/-!
A JSON parser over bytes, modelling the body parsing done by
`express.json()` (which runs `JSON.parse` on the raw body).  Recursion
is on an explicit fuel so everything is structural.  It covers the JSON
used by this SDK's bodies: objects, arrays, strings with the common
escapes, integer numbers, `true`/`false`/`null`, and insignificant
whitespace.
-/

/-- Skip JSON whitespace (space, tab, newline, carriage return). -/
def skipWs : List Nat → List Nat
  | c :: rest =>
      if c = 32 ∨ c = 9 ∨ c = 10 ∨ c = 13 then skipWs rest else c :: rest
  | [] => []

/-- Parse the remainder of a string literal after the opening quote,
returning the string's bytes and the input after the closing quote. -/
def parseStrRest : Nat → List Nat → Option (List Nat × List Nat)
  | 0, _ => none
  | _ + 1, [] => none
  | fuel + 1, c :: rest =>
      if c = 34 then some ([], rest)
      else if c = 92 then
        match rest with
        | [] => none
        | e :: rest2 =>
            let dec : Option Nat :=
              if e = 34 then some 34
              else if e = 92 then some 92
              else if e = 47 then some 47
              else if e = 110 then some 10
              else if e = 114 then some 13
              else if e = 116 then some 9
              else none
            match dec with
            | none => none
            | some d =>
                match parseStrRest fuel rest2 with
                | some (s, rem) => some (d :: s, rem)
                | none => none
      else
        match parseStrRest fuel rest with
        | some (s, rem) => some (c :: s, rem)
        | none => none

/-- Decode ASCII bytes back into a `String` (used for parsed keys and
string values). -/
def stringOfBytes (bs : List Nat) : String :=
  String.mk (bs.map Char.ofNat)

/-- Parse a run of decimal digits into a number, left-to-right. -/
def parseDigits : Nat → Nat → List Nat → Option (Nat × List Nat)
  | 0, _, _ => none
  | _ + 1, acc, [] => some (acc, [])
  | fuel + 1, acc, c :: rest =>
      if 48 ≤ c ∧ c ≤ 57 then parseDigits fuel (acc * 10 + (c - 48)) rest
      else some (acc, c :: rest)

mutual

/-- Parse one JSON value from the input (fueled recursive descent). -/
def parseValue : Nat → List Nat → Option (Json × List Nat)
  | 0, _ => none
  | _ + 1, [] => none
  | fuel + 1, c :: rest =>
      if c = 123 then
        match skipWs rest with
        | 125 :: rem => some (Json.obj JsonObj.nil, rem)
        | other => match parseMembers fuel other with
                   | some (fs, rem) => some (Json.obj fs, rem)
                   | none => none
      else if c = 91 then
        match skipWs rest with
        | 93 :: rem => some (Json.arr JsonArr.nil, rem)
        | other => match parseElements fuel other with
                   | some (xs, rem) => some (Json.arr xs, rem)
                   | none => none
      else if c = 34 then
        match parseStrRest fuel rest with
        | some (s, rem) => some (Json.str (stringOfBytes s), rem)
        | none => none
      else if c = 116 then
        match rest with
        | 114 :: 117 :: 101 :: rem => some (Json.bool true, rem)
        | _ => none
      else if c = 102 then
        match rest with
        | 97 :: 108 :: 115 :: 101 :: rem => some (Json.bool false, rem)
        | _ => none
      else if c = 110 then
        match rest with
        | 117 :: 108 :: 108 :: rem => some (Json.null, rem)
        | _ => none
      else if c = 45 then
        match rest with
        | d :: rest2 =>
            if 48 ≤ d ∧ d ≤ 57 then
              match parseDigits fuel (d - 48) rest2 with
              | some (n, rem) => some (Json.num (-(n : Int)), rem)
              | none => none
            else none
        | [] => none
      else if 48 ≤ c ∧ c ≤ 57 then
        match parseDigits fuel (c - 48) rest with
        | some (n, rem) => some (Json.num (n : Int), rem)
        | none => none
      else none

/-- Parse the members of an object after `{` (input already past
leading whitespace, known not to start with `}`). -/
def parseMembers : Nat → List Nat → Option (JsonObj × List Nat)
  | 0, _ => none
  | fuel + 1, input =>
      match input with
      | 34 :: rest =>
          match parseStrRest fuel rest with
          | some (k, afterKey) =>
              match skipWs afterKey with
              | 58 :: afterColon =>
                  match parseValue fuel (skipWs afterColon) with
                  | some (v, afterVal) =>
                      match skipWs afterVal with
                      | 44 :: afterComma =>
                          match parseMembers fuel (skipWs afterComma) with
                          | some (fs, rem) =>
                              some (JsonObj.cons (stringOfBytes k) v fs, rem)
                          | none => none
                      | 125 :: rem => some (JsonObj.cons (stringOfBytes k) v JsonObj.nil, rem)
                      | _ => none
                  | none => none
              | _ => none
          | none => none
      | _ => none

/-- Parse the elements of an array after `[` (input already past
leading whitespace, known not to start with `]`). -/
def parseElements : Nat → List Nat → Option (JsonArr × List Nat)
  | 0, _ => none
  | fuel + 1, input =>
      match parseValue fuel input with
      | some (v, afterVal) =>
          match skipWs afterVal with
          | 44 :: afterComma =>
              match parseElements fuel (skipWs afterComma) with
              | some (xs, rem) => some (JsonArr.cons v xs, rem)
              | none => none
          | 93 :: rem => some (JsonArr.cons v JsonArr.nil, rem)
          | _ => none
      | none => none

end

/-- Embedding of the body parsing performed by `express.json()`:
`JSON.parse` of the raw body bytes (`none` on malformed input or
trailing garbage). -/
def parseJson (raw : List Nat) : Option Json :=
  match parseValue (raw.length + 1) (skipWs raw) with
  | some (v, rem) => if skipWs rem = [] then some v else none
  | none => none

/-!
The `POST /query` route of `MTAgent.setupRoutes` (`src/index.ts` lines
245-287), embedded as a pure function.  Runtime-environment inputs are
passed explicitly: `freshId` for `crypto.randomUUID()`, `nowIso` for
`new Date().toISOString()`, and `startTime`/`endTime` for the two
`Date.now()` calls (milliseconds, as `Int` like a JavaScript number).
A thrown exception that escapes the route (none is caught outside the
`try` block) is modelled as `Except.error`.
-/

/-- The canonical query record built by the route.  The TypeScript
interface declares strings, but the route performs no validation, so at
runtime each field holds whatever JSON value the alias chain produced;
the fields are therefore modelled as `Json`. -/
structure IncomingQuery where
  queryId : Json
  text : Json
  capabilities : Json
  metadata : Json
  timestamp : Json
deriving Repr

/-- A handler's successful result (`QueryResponse`, `src/index.ts` lines
55-62): `metadata` and `cost` are optional. -/
structure QueryResponse where
  response : String
  metadata : Option Json
  cost : Option Int
deriving Repr

/-- What the handler does on a given query: return a response, or throw
a value whose `message` property is modelled as `Option String`
(`some m` for a message string `m`, possibly empty; `none` for a thrown
value with no `message` property). -/
abbrev QueryHandler := IncomingQuery → Except (Option String) QueryResponse

/-- Embedding of the query normalization in the route (`src/index.ts`
lines 262-268): each field is a JavaScript `||` chain over aliases. -/
def normalizeQuery (body : Json) (freshId nowIso : String) : IncomingQuery :=
  { queryId := jsOr (body.lookup "query_id") (jsOr (body.lookup "queryId") (Json.str freshId))
    text := jsOr (body.lookup "query") (jsOr (body.lookup "text")
              (jsOr (body.lookup "prompt") (Json.str "")))
    capabilities := jsOr (body.lookup "capabilities")
              (jsOr (body.lookup "capabilities_needed") (Json.arr JsonArr.nil))
    metadata := jsOr (body.lookup "metadata") (Json.obj JsonObj.nil)
    timestamp := jsOr (body.lookup "timestamp") (Json.str nowIso) }

/-- An HTTP response: status code and JSON body. -/
structure HttpResponse where
  status : Nat
  body : Json
deriving Repr

/-- Result of one run of the route: the response sent, plus a flag
recording whether the registered handler was invoked (instrumentation
marking the single call site `await this.queryHandler(query)`). -/
structure RouteOutcome where
  response : HttpResponse
  handlerInvoked : Bool
deriving Repr

/-- The error message used in the catch block:
`error.message || 'Query handler error'` (JavaScript `||`, so an empty
message also falls back). -/
def handlerErrorMessage (e : Option String) : String :=
  match e with
  | some m => if m = "" then "Query handler error" else m
  | none => "Query handler error"

/-- The success envelope (`src/index.ts` lines 273-278).  `res.json`
serializes with `JSON.stringify`, which drops properties whose value is
`undefined`, so the `metadata` key is present only when the handler
returned one. -/
def successBody (r : QueryResponse) (duration : Int) : Json :=
  Json.obj (JsonObj.cons "success" (Json.bool true)
    (JsonObj.cons "response" (Json.str r.response)
      (match r.metadata with
       | some m => JsonObj.cons "metadata" m
           (JsonObj.cons "duration_ms" (Json.num duration) JsonObj.nil)
       | none => JsonObj.cons "duration_ms" (Json.num duration) JsonObj.nil)))

/-- The failure envelope (`src/index.ts` lines 281-285). -/
def failureBody (e : Option String) (duration : Int) : Json :=
  Json.obj (JsonObj.cons "success" (Json.bool false)
    (JsonObj.cons "error" (Json.str (handlerErrorMessage e))
      (JsonObj.cons "duration_ms" (Json.num duration) JsonObj.nil)))

/-- Embedding of the `POST /query` route (`src/index.ts` lines 245-287).
`sigHeader` is the value of the `x-mt-signature` header as bytes
(`none` when absent); `body` is the parsed request body (`req.body`);
the JavaScript guard `if (signature)` also skips verification when the
header is the empty string.  The payload passed to `verifySignature` is
`JSON.stringify(req.body)` — a re-serialization of the parsed body. -/
def postQuery (webhookSecret : List Nat) (queryHandler : Option QueryHandler)
    (sigHeader : Option (List Nat)) (body : Json)
    (freshId nowIso : String) (startTime endTime : Int) :
    Except String RouteOutcome :=
  let checkSig := match sigHeader with
                  | some s => decide (s ≠ [])
                  | none => false
  let afterAuth : Except String RouteOutcome :=
    match queryHandler with
    | none =>
        Except.ok ⟨⟨500, Json.obj (JsonObj.cons "error"
          (Json.str "No query handler registered") JsonObj.nil)⟩, false⟩
    | some handler =>
        let query := normalizeQuery body freshId nowIso
        match handler query with
        | Except.ok r =>
            Except.ok ⟨⟨200, successBody r (endTime - startTime)⟩, true⟩
        | Except.error e =>
            Except.ok ⟨⟨500, failureBody e (endTime - startTime)⟩, true⟩
  if checkSig then
    let payload := stringifyJson body
    match verifySignature payload (sigHeader.getD []) webhookSecret with
    | Except.error e => Except.error e
    | Except.ok false =>
        Except.ok ⟨⟨401, Json.obj (JsonObj.cons "error"
          (Json.str "Invalid signature") JsonObj.nil)⟩, false⟩
    | Except.ok true => afterAuth
  else afterAuth

/-- Uppercasing of ASCII bytes (JavaScript `toUpperCase` on the ASCII
range): used to state case-sensitivity of signature comparison. -/
def toUpperBytes (bs : List Nat) : List Nat :=
  bs.map (fun c => if 97 ≤ c ∧ c ≤ 122 then c - 32 else c)

theorem sha256_length (msg : List Nat) : (sha256 msg).length = 32 := by
  simp [sha256, wordBytes]

theorem hmacSha256_length (key msg : List Nat) :
    (hmacSha256 key msg).length = 32 := by
  simp [hmacSha256, sha256_length]

theorem hexBytes_length (bs : List Nat) :
    (hexBytes bs).length = 2 * bs.length := by
  induction bs with
  | nil => rfl
  | cons b tl ih =>
      simp [hexBytes, List.flatMap_cons] at ih ⊢
      omega

theorem createSignature_length (payload secret : List Nat) :
    (createSignature payload secret).length = 64 := by
  simp [createSignature, hexBytes_length, hmacSha256_length]

/-- Keys of a JSON object, in order. -/
def JsonObj.keys : JsonObj → List String
  | .nil => []
  | .cons k _ tl => k :: tl.keys

/-- Keys of a JSON value (empty for non-objects). -/
def Json.keys : Json → List String
  | .obj fs => fs.keys
  | _ => []

/-- Sample handler that succeeds with response `"ok"` and nothing else. -/
def okHandler : QueryHandler := fun _ => Except.ok ⟨"ok", none, none⟩

/-- Sample handler that throws an error with message `"boom"`. -/
def failHandler : QueryHandler := fun _ => Except.error (some "boom")

/-- Sample handler that succeeds with a `cost` and no `metadata`. -/
def costHandler : QueryHandler := fun _ => Except.ok ⟨"ok", none, some 5⟩

/-- The parsed body of the JSON text with single field `query` set to `"x"`. -/
def bodyQueryX : Json := Json.obj (JsonObj.cons "query" (Json.str "x") JsonObj.nil)

/-- A body carrying both identifier aliases: `query_id` set to the empty
string and `queryId` set to `"u2"`. -/
def bodyBothIds : Json :=
  Json.obj (JsonObj.cons "query_id" (Json.str "")
    (JsonObj.cons "queryId" (Json.str "u2") JsonObj.nil))

/-- Raw body bytes as a sender may serialize them: the fourteen bytes of
the JSON text for the object with field `query` set to `"x"`, with a
space after the colon. -/
def rawBodyWithSpace : List Nat := asciiBytes "\x7b\"query\": \"x\"\x7d"

/-- Claim C1.  The claim states that `verify` with a malformed
(non-hex, or wrong-length) signature string returns `false` and never
throws.  The code disagrees: `crypto.timingSafeEqual` throws a
`RangeError` whenever `Buffer.from(signature)` has a byte length
different from the 64-byte expected hex digest (the signature string is
never hex-decoded at all).  This theorem evaluates the embedded
`verifySignature` at the failing input (payload `"x"`, secret `"k"`,
signature `"abc"`): it throws instead of returning `false`.  A 64-byte
non-hex signature, by contrast, does return `false` (second conjunct,
signature of 64 `'z'` bytes). -/
theorem claim_C1_verify_throws_on_wrong_length_signature :
    verifySignature (asciiBytes "x") (asciiBytes "abc") (asciiBytes "k")
      = Except.error "RangeError: Input buffers must have the same byte length"
    ∧ verifySignature (asciiBytes "x") (List.replicate 64 122) (asciiBytes "k")
      = Except.ok false :=
  ⟨rfl, rfl⟩

/-- Claim C2.  Round-trip: for all payload bytes and all secrets,
verifying the signature produced by `createSignature` succeeds and
returns `true`. -/
theorem claim_C2_verify_sign_roundtrip (payload secret : List Nat) :
    verifySignature payload (createSignature payload secret) secret
      = Except.ok true := by
  simp [verifySignature]

/-- Claim C9.  `verifySignature` compares the provided signature string
byte-for-byte against the lowercase hex encoding of the expected digest
(not against decoded digest bytes), so it is case-sensitive: whenever
the uppercase form of the correct signature differs from the lowercase
form (that is, whenever the digest's hex contains a letter), passing
the uppercase form returns `false`. -/
theorem claim_C9_uppercase_signature_rejected (payload secret : List Nat)
    (hne : toUpperBytes (createSignature payload secret)
             ≠ createSignature payload secret) :
    verifySignature payload (toUpperBytes (createSignature payload secret)) secret
      = Except.ok false := by
  have hlen : (toUpperBytes (createSignature payload secret)).length
      = (createSignature payload secret).length := List.length_map _ _
  simp [verifySignature, hlen, hne]

/-- Witness for claim C9 at payload `"payload"`, secret `"secret"`:
the digest's hex contains a letter, so its uppercase form differs and
is rejected. -/
theorem claim_C9_uppercase_signature_rejected_witness :
    toUpperBytes (createSignature (asciiBytes "payload") (asciiBytes "secret"))
      ≠ createSignature (asciiBytes "payload") (asciiBytes "secret")
    ∧ verifySignature (asciiBytes "payload")
        (toUpperBytes (createSignature (asciiBytes "payload") (asciiBytes "secret")))
        (asciiBytes "secret") = Except.ok false := by
  have hne : toUpperBytes (createSignature (asciiBytes "payload") (asciiBytes "secret"))
      ≠ createSignature (asciiBytes "payload") (asciiBytes "secret") := by decide
  exact ⟨hne, claim_C9_uppercase_signature_rejected _ _ hne⟩

/-- Claim C3.  The claim states that the payload passed to signature
verification is exactly the raw received body bytes, computed before
any JSON parsing.  The code disagrees: the route computes
`JSON.stringify(req.body)` after `express.json()` has already parsed
the body.  At the failing input — raw body bytes with a space after the
colon — the parse succeeds (first conjunct), the re-serialization
differs from the raw bytes (second conjunct), and a request whose
header is the correct signature of the raw bytes under the configured
secret is rejected with 401 and never reaches the handler (third
conjunct), which could not happen if the raw bytes were verified. -/
theorem claim_C3_payload_is_reserialization_not_raw_bytes :
    parseJson rawBodyWithSpace = some bodyQueryX
    ∧ stringifyJson bodyQueryX ≠ rawBodyWithSpace
    ∧ postQuery (asciiBytes "s1") (some okHandler)
        (some (createSignature rawBodyWithSpace (asciiBytes "s1")))
        bodyQueryX "id" "now" 0 5
      = Except.ok ⟨⟨401, Json.obj (JsonObj.cons "error"
          (Json.str "Invalid signature") JsonObj.nil)⟩, false⟩ := by
  refine ⟨rfl, by decide, ?_⟩
  rfl

/-- Claim C4.  A present `x-mt-signature` header that does not verify —
here, one computed with a different secret whose digest differs from
the expected one — yields HTTP 401 with body having the single field
`error` set to `"Invalid signature"`, for every registered handler
(and the handler-invoked flag is false). -/
theorem claim_C4_wrong_signature_rejected_401
    (secret otherSecret : List Nat) (handler : Option QueryHandler)
    (body : Json) (freshId nowIso : String) (t0 t1 : Int)
    (hne : createSignature (stringifyJson body) otherSecret
         ≠ createSignature (stringifyJson body) secret) :
    postQuery secret handler
        (some (createSignature (stringifyJson body) otherSecret))
        body freshId nowIso t0 t1
      = Except.ok ⟨⟨401, Json.obj (JsonObj.cons "error"
          (Json.str "Invalid signature") JsonObj.nil)⟩, false⟩ := by
  have hlen := createSignature_length (stringifyJson body) otherSecret
  have hlen2 := createSignature_length (stringifyJson body) secret
  have hnil : createSignature (stringifyJson body) otherSecret ≠ [] := by
    intro h
    rw [h] at hlen
    simp at hlen
  simp [postQuery, hnil, verifySignature, hlen, hlen2, hne]

/-- Witness for claim C4: the scenario of the spec — secret `"s1"`,
body the object with `query` set to `"x"`, header computed with secret
`"s2"` — produces HTTP 401 and the handler is not invoked. -/
theorem claim_C4_wrong_signature_rejected_401_witness :
    createSignature (stringifyJson bodyQueryX) (asciiBytes "s2")
      ≠ createSignature (stringifyJson bodyQueryX) (asciiBytes "s1")
    ∧ postQuery (asciiBytes "s1") (some okHandler)
        (some (createSignature (stringifyJson bodyQueryX) (asciiBytes "s2")))
        bodyQueryX "id" "now" 0 5
      = Except.ok ⟨⟨401, Json.obj (JsonObj.cons "error"
          (Json.str "Invalid signature") JsonObj.nil)⟩, false⟩ := by
  have hne : createSignature (stringifyJson bodyQueryX) (asciiBytes "s2")
      ≠ createSignature (stringifyJson bodyQueryX) (asciiBytes "s1") := by decide
  exact ⟨hne, claim_C4_wrong_signature_rejected_401 (asciiBytes "s1")
    (asciiBytes "s2") (some okHandler) bodyQueryX "id" "now" 0 5 hne⟩

/-- Counterexample to claim C5.  The claim states that `query_id` takes
precedence over `queryId` whenever both are set.  The code uses
JavaScript `||`, which skips falsy values: with `query_id` set to the
empty string and `queryId` set to `"u2"`, the normalized `queryId` is
`"u2"`, not the value of `query_id`. -/
theorem claim_C5_counterexample_falsy_alias_skipped :
    (normalizeQuery bodyBothIds "fresh" "now").queryId = Json.str "u2"
    ∧ Json.str "u2" ≠ Json.str "" := by
  refine ⟨rfl, ?_⟩
  intro h
  injection h with h2
  exact absurd h2 (by decide)

/-- Claim C5 as amended: each logical field is read from the first
alias whose value is truthy in the JavaScript sense (a present but
falsy value — `""`, `0`, `false`, `null` — falls through to the next
alias).  For `text`, the order is `query`, `text`, `prompt`, default
`""`; a body with only `query` set to `"hi"` yields text `"hi"`.  For
the identifier, `query_id` takes precedence over `queryId` whenever its
value is truthy, and a fresh identifier is generated when neither alias
is truthy. -/
theorem claim_C5_alias_precedence_by_truthiness
    (body : Json) (freshId nowIso : String) :
    ((normalizeQuery (Json.obj (JsonObj.cons "query" (Json.str "hi") JsonObj.nil))
        freshId nowIso).text = Json.str "hi")
    ∧ (truthy (body.lookup "query") = true →
        (normalizeQuery body freshId nowIso).text
          = (body.lookup "query").getD Json.null)
    ∧ (truthy (body.lookup "query") = false →
        truthy (body.lookup "text") = true →
        (normalizeQuery body freshId nowIso).text
          = (body.lookup "text").getD Json.null)
    ∧ (truthy (body.lookup "query") = false →
        truthy (body.lookup "text") = false →
        truthy (body.lookup "prompt") = true →
        (normalizeQuery body freshId nowIso).text
          = (body.lookup "prompt").getD Json.null)
    ∧ (truthy (body.lookup "query") = false →
        truthy (body.lookup "text") = false →
        truthy (body.lookup "prompt") = false →
        (normalizeQuery body freshId nowIso).text = Json.str "")
    ∧ (truthy (body.lookup "query_id") = true →
        (normalizeQuery body freshId nowIso).queryId
          = (body.lookup "query_id").getD Json.null)
    ∧ (truthy (body.lookup "query_id") = false →
        truthy (body.lookup "queryId") = true →
        (normalizeQuery body freshId nowIso).queryId
          = (body.lookup "queryId").getD Json.null)
    ∧ (truthy (body.lookup "query_id") = false →
        truthy (body.lookup "queryId") = false →
        (normalizeQuery body freshId nowIso).queryId = Json.str freshId) := by
  refine ⟨rfl, ?_, ?_, ?_, ?_, ?_, ?_, ?_⟩
  · intro h1
    simp [normalizeQuery, jsOr, h1]
  · intro h1 h2
    simp [normalizeQuery, jsOr, h1, h2]
  · intro h1 h2 h3
    simp [normalizeQuery, jsOr, h1, h2, h3]
  · intro h1 h2 h3
    simp [normalizeQuery, jsOr, h1, h2, h3]
  · intro h1
    simp [normalizeQuery, jsOr, h1]
  · intro h1 h2
    simp [normalizeQuery, jsOr, h1, h2]
  · intro h1 h2
    simp [normalizeQuery, jsOr, h1, h2]

/-- Witness for the amended claim C5, at concrete bodies: the body with
only `query` set to `"hi"` yields text `"hi"`, and in the body with
`query_id` empty and `queryId` set to `"u2"` the normalization reads
`queryId`. -/
theorem claim_C5_alias_precedence_by_truthiness_witness :
    (normalizeQuery (Json.obj (JsonObj.cons "query" (Json.str "hi") JsonObj.nil))
        "fresh" "now").text = Json.str "hi"
    ∧ (normalizeQuery bodyBothIds "fresh" "now").queryId
        = (bodyBothIds.lookup "queryId").getD Json.null :=
  ⟨(claim_C5_alias_precedence_by_truthiness bodyBothIds "fresh" "now").1,
   (claim_C5_alias_precedence_by_truthiness bodyBothIds "fresh" "now").2.2.2.2.2.2.1
     (by decide) (by decide)⟩

/-- Counterexample to claim C6.  The claim states that the no-handler
response body contains `success:false`.  The code sends
`{error:"No query handler registered"}` with no `success` field at all:
at a concrete request, the response body has no `success` key. -/
theorem claim_C6_counterexample_no_success_field :
    postQuery (asciiBytes "s1") none none bodyQueryX "id" "now" 0 5
      = Except.ok ⟨⟨500, Json.obj (JsonObj.cons "error"
          (Json.str "No query handler registered") JsonObj.nil)⟩, false⟩
    ∧ (Json.obj (JsonObj.cons "error"
        (Json.str "No query handler registered") JsonObj.nil)).lookup "success"
      = none :=
  ⟨rfl, rfl⟩

/-- Claim C6 as amended: when no query handler has been registered,
`POST /query` returns HTTP 500 whose body is exactly
`{error:"No query handler registered"}` (there is no `success` field),
and the handler-invoked flag is false — for every secret, body and
timing. -/
theorem claim_C6_no_handler_500 (secret : List Nat) (body : Json)
    (freshId nowIso : String) (t0 t1 : Int) :
    postQuery secret none none body freshId nowIso t0 t1
      = Except.ok ⟨⟨500, Json.obj (JsonObj.cons "error"
          (Json.str "No query handler registered") JsonObj.nil)⟩, false⟩ :=
  rfl

/-- Claim C7.  When the registered handler signals an error, the route
catches it and responds HTTP 500 with `success:false`, an `error`
string equal to the failure's message (with the generic fallback
`"Query handler error"` when the message is absent — or empty, by
JavaScript truthiness), and `duration_ms` equal to the elapsed time,
which is nonnegative whenever the second clock reading is not before
the first.  The result is a normal response (`Except.ok`), never an
escaped exception: the server does not crash on handler failure. -/
theorem claim_C7_handler_failure_caught (secret : List Nat)
    (handler : QueryHandler) (body : Json) (freshId nowIso : String)
    (t0 t1 : Int) (e : Option String)
    (hh : handler (normalizeQuery body freshId nowIso) = Except.error e)
    (ht : t0 ≤ t1) :
    postQuery secret (some handler) none body freshId nowIso t0 t1
      = Except.ok ⟨⟨500, failureBody e (t1 - t0)⟩, true⟩
    ∧ (failureBody e (t1 - t0)).lookup "success" = some (Json.bool false)
    ∧ (failureBody e (t1 - t0)).lookup "error"
        = some (Json.str (handlerErrorMessage e))
    ∧ (failureBody e (t1 - t0)).lookup "duration_ms"
        = some (Json.num (t1 - t0))
    ∧ 0 ≤ t1 - t0 := by
  refine ⟨?_, rfl, ?_, ?_, by omega⟩
  · simp [postQuery, hh]
  · simp [failureBody, Json.lookup, JsonObj.lookup]
  · simp [failureBody, Json.lookup, JsonObj.lookup]

/-- Witness for claim C7: a handler that throws with message `"boom"`
yields HTTP 500 with `success:false`, error `"boom"` and
`duration_ms` equal to 5. -/
theorem claim_C7_handler_failure_caught_witness :
    postQuery (asciiBytes "s1") (some failHandler) none bodyQueryX "id" "now" 0 5
      = Except.ok ⟨⟨500, failureBody (some "boom") 5⟩, true⟩
    ∧ (failureBody (some "boom") 5).lookup "error" = some (Json.str "boom")
    ∧ (0 : Int) ≤ 5 :=
  ⟨(claim_C7_handler_failure_caught (asciiBytes "s1") failHandler bodyQueryX
      "id" "now" 0 5 (some "boom") rfl (by decide)).1,
   (claim_C7_handler_failure_caught (asciiBytes "s1") failHandler bodyQueryX
      "id" "now" 0 5 (some "boom") rfl (by decide)).2.2.1,
   by decide⟩

/-- Claim C8.  When the `x-mt-signature` header is absent the request
proceeds unauthenticated: no verification is performed — the outcome
does not depend on the configured secret in any way — and the
registered handler is invoked (whether it succeeds or throws). -/
theorem claim_C8_absent_header_skips_verification
    (secret1 secret2 : List Nat) (handler : QueryHandler) (body : Json)
    (freshId nowIso : String) (t0 t1 : Int) :
    postQuery secret1 (some handler) none body freshId nowIso t0 t1
      = postQuery secret2 (some handler) none body freshId nowIso t0 t1
    ∧ ∃ out, postQuery secret1 (some handler) none body freshId nowIso t0 t1
          = Except.ok out
        ∧ out.handlerInvoked = true := by
  constructor
  · rfl
  · cases hq : handler (normalizeQuery body freshId nowIso) with
    | ok r =>
        exact ⟨⟨⟨200, successBody r (t1 - t0)⟩, true⟩, by simp [postQuery, hq], rfl⟩
    | error e =>
        exact ⟨⟨⟨500, failureBody e (t1 - t0)⟩, true⟩, by simp [postQuery, hq], rfl⟩

/-- Counterexample to claim C10.  The claim states that every success
response contains exactly the fields `success`, `response`, `metadata`
and `duration_ms`.  When the handler returns no `metadata`,
`res.json`'s serialization drops the `undefined` property, so the
response body has no `metadata` key (and three fields, not four). -/
theorem claim_C10_counterexample_metadata_dropped :
    postQuery (asciiBytes "s1") (some costHandler) none bodyQueryX "id" "now" 0 5
      = Except.ok ⟨⟨200, Json.obj (JsonObj.cons "success" (Json.bool true)
          (JsonObj.cons "response" (Json.str "ok")
            (JsonObj.cons "duration_ms" (Json.num 5) JsonObj.nil)))⟩, true⟩
    ∧ (Json.obj (JsonObj.cons "success" (Json.bool true)
        (JsonObj.cons "response" (Json.str "ok")
          (JsonObj.cons "duration_ms" (Json.num 5) JsonObj.nil)))).lookup "metadata"
      = none :=
  ⟨rfl, rfl⟩

/-- Claim C10 as amended: the success envelope never contains a `cost`
key — the handler's optional `cost` is dropped — and its keys are
exactly `success`, `response`, `duration_ms`, with `metadata` included
(between `response` and `duration_ms`) exactly when the handler
returned one. -/
theorem claim_C10_cost_never_in_envelope (secret : List Nat)
    (handler : QueryHandler) (body : Json) (freshId nowIso : String)
    (t0 t1 : Int) (r : QueryResponse)
    (hh : handler (normalizeQuery body freshId nowIso) = Except.ok r) :
    postQuery secret (some handler) none body freshId nowIso t0 t1
      = Except.ok ⟨⟨200, successBody r (t1 - t0)⟩, true⟩
    ∧ (successBody r (t1 - t0)).lookup "cost" = none
    ∧ (successBody r (t1 - t0)).keys
        = (match r.metadata with
           | some _ => ["success", "response", "metadata", "duration_ms"]
           | none => ["success", "response", "duration_ms"]) := by
  refine ⟨by simp [postQuery, hh], ?_, ?_⟩
  · obtain ⟨resp, md, cost⟩ := r
    cases md <;> rfl
  · obtain ⟨resp, md, cost⟩ := r
    cases md <;> rfl

/-- Witness for the amended claim C10: a handler returning a `cost` and
no `metadata` yields a success envelope with keys `success`,
`response`, `duration_ms` and no `cost` key. -/
theorem claim_C10_cost_never_in_envelope_witness :
    postQuery (asciiBytes "s1") (some costHandler) none bodyQueryX "id" "now" 0 5
      = Except.ok ⟨⟨200, successBody ⟨"ok", none, some 5⟩ 5⟩, true⟩
    ∧ (successBody ⟨"ok", none, some 5⟩ 5).lookup "cost" = none
    ∧ (successBody ⟨"ok", none, some 5⟩ 5).keys
        = ["success", "response", "duration_ms"] :=
  ⟨(claim_C10_cost_never_in_envelope (asciiBytes "s1") costHandler bodyQueryX
      "id" "now" 0 5 ⟨"ok", none, some 5⟩ rfl).1,
   (claim_C10_cost_never_in_envelope (asciiBytes "s1") costHandler bodyQueryX
      "id" "now" 0 5 ⟨"ok", none, some 5⟩ rfl).2.1,
   (claim_C10_cost_never_in_envelope (asciiBytes "s1") costHandler bodyQueryX
      "id" "now" 0 5 ⟨"ok", none, some 5⟩ rfl).2.2⟩

end MTSdk
